import Mathlib

/-!
Verification of `skills/baoyu-post-to-wechat/scripts/wechat-browser.ts` and
`wechat-article.ts` (aki-skills repository).

The relevant routines are shallowly embedded as pure Lean functions:
* the upload-verification loop `waitForImagesUploaded`,
* the error-signal orchestration inside `postToWeChat` (upload phase),
* the CDP connection (`CdpConnection.send`, its timers, the message and
  close listeners),
* the file-input scoring heuristic `findBestFileInputNodeIds`,
* the visibility predicates used across the file, and
* the placeholder-selection/image-paste loop of `wechat-article.ts`.

Time, the DOM and the WebSocket are abstracted into explicit data that the
embedded control flow consumes; each definition mirrors the source line by
line.
-/

namespace WechatBrowser

/-! ### waitForImagesUploaded (wechat-browser.ts lines 181-263)

Each loop iteration evaluates a JS probe returning
`{count, uploading, hasCoverStyle}` where `count` is already the maximum
over the candidate selectors.  We model one iteration as a pair of
timestamps (elapsed ms at the `while` guard, elapsed ms right after the
probe, line 249) together with the probe's parsed result. -/

structure UploadSample where
  count : Nat
  uploading : Nat
  hasCoverStyle : Bool
deriving Repr, DecidableEq

/-- One iteration of the polling loop: elapsed time at the `while` check
(line 191), elapsed time recomputed after the probe (line 249), and the
parsed probe result. -/
structure UploadTick where
  checkElapsed : Nat
  sampleElapsed : Nat
  sample : UploadSample
deriving Repr, DecidableEq

/-- `minWaitMs` constant, line 188. -/
def minWaitMs : Nat := 8000

/-- Default `timeoutMs` parameter, line 185. -/
def defaultUploadTimeoutMs : Nat := 45000

/-- Grace sleep after the loop times out, line 262. -/
def graceSleepMs : Nat := 6000

/-- Outcome of `waitForImagesUploaded`: either the success `return` at
line 255 (carrying the elapsed time and sample of the successful
iteration), or the fall-through at lines 261-262 (carrying the best count
observed and the extra grace sleep performed before returning). -/
inductive WaitOutcome where
  | success (elapsed : Nat) (s : UploadSample)
  | timedOutGrace (bestCount : Nat) (graceMs : Nat)
deriving Repr, DecidableEq

/-- The loop body of `waitForImagesUploaded`, lines 189-262, driven by the
trace of iterations the clock and the page produce.  An empty remaining
trace means the `while` guard is about to fail. -/
def waitLoop (expectedCount timeoutMs : Nat) :
    List UploadTick → Nat → WaitOutcome
  | [], bestCount => .timedOutGrace bestCount graceSleepMs
  | t :: rest, bestCount =>
    if t.checkElapsed < timeoutMs then
      let bestCount' := max bestCount t.sample.count
      let enoughWait := decide (t.sampleElapsed ≥ minWaitMs)
      let hasVisualSignal :=
        decide (t.sample.count ≥ expectedCount) || t.sample.hasCoverStyle
      if enoughWait && hasVisualSignal && decide (t.sample.uploading = 0) then
        .success t.sampleElapsed t.sample
      else
        waitLoop expectedCount timeoutMs rest bestCount'
    else
      .timedOutGrace bestCount graceSleepMs

/-- `waitForImagesUploaded` with `bestCount` initialised to 0 (line 189). -/
def waitForImagesUploaded (expectedCount timeoutMs : Nat)
    (trace : List UploadTick) : WaitOutcome :=
  waitLoop expectedCount timeoutMs trace 0

/-! ### postToWeChat, upload phase (wechat-browser.ts lines 2242-2351)

The orchestrator resolves a file input, assigns the files, waits, reads
three DOM probes (`detectImageUploadIssue`, `verifyCoverReady`,
`waitForTopImageReady`), optionally retries once, optionally falls back to
a clipboard paste, and finally throws iff an issue remains or the
flow-specific readiness verification is negative.  The DOM probe results
at each checkpoint are abstracted into an environment record. -/

/-- Which routine resolved the upload file input. -/
inductive InputResolver where
  /-- `findTopImageFileInputNodeIds` (lines 454-472). -/
  | topImage
  /-- `findBestFileInputNodeIds`, the scoring heuristic (lines 1322-1433). -/
  | bestScored
  /-- `findAllFileInputNodeIds`, every `input[type=file]` (lines 1435-1444). -/
  | allInputs
deriving Repr, DecidableEq

/-- Externally visible upload actions of the upload phase. -/
inductive UploadEvent where
  /-- `DOM.setFileInputFiles` on the nodes returned by `resolver`
  (lines 2245-2250 and 2300-2305). -/
  | assignFiles (resolver : InputResolver) (files : List String)
  /-- `pasteImageViaClipboard` fallback (line 2329). -/
  | clipboardPaste (file : String)
deriving Repr, DecidableEq

/-- Results of the three DOM probes read after an upload attempt
(lines 2259-2261 resp. 2312-2314). -/
structure UploadProbe where
  issue : Option String
  coverReady : Bool
  topImageReady : Bool
deriving Repr, DecidableEq

/-- Abstraction of everything the page reports to the upload phase. -/
structure UploadEnv where
  /-- `isStickerFlow` (line 2190). -/
  isStickerFlow : Bool
  /-- Probes after the first attempt (lines 2259-2261). -/
  probe1 : UploadProbe
  /-- Probes after the retry (lines 2312-2314); read only if a retry runs. -/
  probe2 : UploadProbe
  /-- Return value of `pasteImageViaClipboard` (line 2329). -/
  clipboardPasteOk : Bool
  /-- `detectImageUploadIssue` after the clipboard paste (line 2332). -/
  probe3Issue : Option String
  /-- `verifyCoverReady` after the clipboard paste (line 2333). -/
  probe3Cover : Bool
  /-- Whether `selectedMenuLabel === '图文'` (line 2341). -/
  menuIsTuwen : Bool
  /-- `hasLegacyCoverArea` (line 2341). -/
  hasLegacyCoverArea : Bool
  /-- `verifyImageTextUploadReady` (line 2342). -/
  imageTextUploadReady : Bool
deriving Repr, DecidableEq

/-- `files: isStickerFlow ? [absolutePaths[0]!] : absolutePaths`
(lines 2248 and 2303). -/
def uploadFilesFor (env : UploadEnv) (paths : List String) : List String :=
  if env.isStickerFlow then paths.take 1 else paths

/-- The retry block runs iff the first `detectImageUploadIssue` was
non-null (line 2262). -/
def retryTriggered (env : UploadEnv) : Bool :=
  env.probe1.issue.isSome

/-- First-attempt resolver (lines 2242-2244). -/
def firstResolver (env : UploadEnv) : InputResolver :=
  if env.isStickerFlow then .topImage else .bestScored

/-- Retry resolver (lines 2273 and 2298). -/
def retryResolver (env : UploadEnv) : InputResolver :=
  if env.isStickerFlow then .topImage else .allInputs

/-- `uploadIssue` after the optional retry (line 2259 resp. 2312). -/
def postRetryIssue (env : UploadEnv) : Option String :=
  if retryTriggered env then env.probe2.issue else env.probe1.issue

/-- `coverReady` after the optional retry (line 2260 resp. 2313). -/
def postRetryCover (env : UploadEnv) : Bool :=
  if retryTriggered env then env.probe2.coverReady else env.probe1.coverReady

/-- `topImageReady` after the optional retry; only queried in the sticker
flow (line 2261 resp. 2314). -/
def postRetryTop (env : UploadEnv) : Bool :=
  if retryTriggered env then
    (if env.isStickerFlow then env.probe2.topImageReady else false)
  else
    (if env.isStickerFlow then env.probe1.topImageReady else false)

/-- Guard of the clipboard-paste fallback block (line 2316):
`!isStickerFlow && !coverReady && absolutePaths.length > 0`. -/
def clipboardFallbackRuns (env : UploadEnv) (paths : List String) : Bool :=
  !env.isStickerFlow && !postRetryCover env && decide (paths.length > 0)

/-- `uploadIssue` as it stands at the failure check (line 2348): the
clipboard block re-reads it only when the paste succeeded (lines 2330-2334). -/
def finalIssue (env : UploadEnv) (paths : List String) : Option String :=
  if clipboardFallbackRuns env paths && env.clipboardPasteOk then
    env.probe3Issue
  else postRetryIssue env

/-- `coverReady` as it stands at the failure check. -/
def finalCover (env : UploadEnv) (paths : List String) : Bool :=
  if clipboardFallbackRuns env paths && env.clipboardPasteOk then
    env.probe3Cover
  else postRetryCover env

/-- `isLegacyCoverFlow` (line 2341). -/
def isLegacyCoverFlow (env : UploadEnv) : Bool :=
  env.menuIsTuwen && env.hasLegacyCoverArea

/-- `uploadOk` (lines 2345-2347). -/
def uploadOk (env : UploadEnv) (paths : List String) : Bool :=
  if isLegacyCoverFlow env then finalCover env paths
  else if env.isStickerFlow then postRetryTop env
  else env.imageTextUploadReady

/-- The thrown message (line 2350):
`Image upload failed${uploadIssue ? `: ${uploadIssue}` : ''}`. -/
def uploadFailureMsg (issue : Option String) : String :=
  "Image upload failed" ++ (match issue with
    | some m => ": " ++ m
    | none => "")

/-- The sequence of upload actions the phase performs: the first
assignment (lines 2245-2250), the single retry assignment when an issue
was detected (lines 2262-2315), and the clipboard fallback
(lines 2316-2335). -/
def uploadEvents (env : UploadEnv) (paths : List String) : List UploadEvent :=
  [.assignFiles (firstResolver env) (uploadFilesFor env paths)]
    ++ (if retryTriggered env then
          [.assignFiles (retryResolver env) (uploadFilesFor env paths)]
        else [])
    ++ (if clipboardFallbackRuns env paths then
          [.clipboardPaste paths.headI]
        else [])

/-- The upload phase: its actions, and the outcome of the failure check at
lines 2348-2351. -/
def uploadPhase (env : UploadEnv) (paths : List String) :
    List UploadEvent × Except String Unit :=
  (uploadEvents env paths,
   if (finalIssue env paths).isSome || !uploadOk env paths then
     .error (uploadFailureMsg (finalIssue env paths))
   else .ok ())

/-- Recogniser for `setFileInputFiles` events. -/
def UploadEvent.isAssign : UploadEvent → Bool
  | .assignFiles _ _ => true
  | .clipboardPaste _ => false

/-! ### CdpConnection (wechat-browser.ts lines 1726-1800)

`pending` is a `Map<number, {resolve, reject, timer}>`; we model it as an
association list in insertion order with the sent method (the value the
timer callback closes over, line 1789) and the armed timer duration.  The
WebSocket itself is reduced to a closed/open flag, which is all the
listeners touch. -/

/-- One entry of the `pending` map. -/
structure PendingEntry where
  /-- The `method` the `send` call closed over. -/
  method : String
  /-- `some t`: a `setTimeout(_, t)` timer is armed; `none`: the
  `timeoutMs > 0 ? setTimeout(...) : null` expression yielded `null`
  (line 1789). -/
  timerMs : Option Nat
deriving Repr, DecidableEq

/-- Connection state: `nextId` counter, the `pending` map, and whether the
underlying WebSocket has been closed. -/
structure CdpState where
  nextId : Nat
  pending : List (Nat × PendingEntry)
  wsClosed : Bool
deriving Repr, DecidableEq

/-- `Map.get` on the pending map. -/
def lookupPending (l : List (Nat × PendingEntry)) (id : Nat) :
    Option PendingEntry :=
  (l.find? (fun p => p.1 = id)).map (·.2)

/-- `Map.delete` on the pending map. -/
def erasePending (l : List (Nat × PendingEntry)) (id : Nat) :
    List (Nat × PendingEntry) :=
  l.filter (fun p => p.1 ≠ id)

/-- `options?.timeoutMs ?? 15_000` (line 1786). -/
def effectiveTimeoutMs (optTimeoutMs : Option Nat) : Nat :=
  optTimeoutMs.getD 15000

/-- `timeoutMs > 0 ? setTimeout(...) : null` (line 1789). -/
def armedTimer (optTimeoutMs : Option Nat) : Option Nat :=
  if effectiveTimeoutMs optTimeoutMs > 0 then
    some (effectiveTimeoutMs optTimeoutMs)
  else none

/-- `CdpConnection.send` (lines 1780-1795): allocate `id = ++this.nextId`,
arm the per-command timer, and register the pending entry.  Returns the
new state and the allocated id. -/
def send (st : CdpState) (method : String) (optTimeoutMs : Option Nat) :
    CdpState × Nat :=
  let id := st.nextId + 1
  ({ st with
      nextId := id,
      pending := st.pending ++ [(id, ⟨method, armedTimer optTimeoutMs⟩)] },
   id)

/-- The error message built by the timer callback (line 1789):
`CDP timeout: ${method}`. -/
def cdpTimeoutMsg (method : String) : String :=
  "CDP timeout: " ++ method

/-- The rejection message used by the close listener (line 1760). -/
def connectionClosedMsg : String := "CDP connection closed."

/-- A promise rejection surfaced to a caller. -/
structure Rejection where
  id : Nat
  msg : String
deriving Repr, DecidableEq

/-- The timer callback of a pending command (line 1789):
`this.pending.delete(id); reject(new Error(`CDP timeout: ${method}`))`.
`method` is the closed-over method of the entry the timer belongs to. -/
def fireTimeout (st : CdpState) (id : Nat) (method : String) :
    CdpState × Rejection :=
  ({ st with pending := erasePending st.pending id },
   ⟨id, cdpTimeoutMsg method⟩)

/-- The `close` listener (lines 1756-1762): delete every pending entry,
clear its timer, and reject its promise with `CDP connection closed.`. -/
def onClose (st : CdpState) : CdpState × List Rejection :=
  ({ st with pending := [] },
   st.pending.map (fun p => ⟨p.1, connectionClosedMsg⟩))

/-! #### The message listener (lines 1734-1754) -/

/-- The `error` field of a CDP frame. -/
structure CdpError where
  message : Option String
deriving Repr, DecidableEq

/-- A parsed CDP frame, as destructured at line 1737. `params`, `result`
are opaque payloads. -/
structure Frame where
  id : Option Nat
  method : Option String
  params : Option String
  result : Option String
  error : Option CdpError
deriving Repr, DecidableEq

/-- JavaScript truthiness of `msg.id` (line 1744): present and non-zero. -/
def idTruthy : Option Nat → Bool
  | some n => n ≠ 0
  | none => false

/-- JavaScript truthiness of `msg.method` (line 1739): present and
non-empty. -/
def methodTruthy : Option String → Bool
  | some s => s ≠ ""
  | none => false

/-- JavaScript truthiness of `msg.error?.message` (line 1749). -/
def errorMessageTruthy : Option CdpError → Bool
  | some e => methodTruthy e.message
  | none => false

/-- The string value of `msg.error?.message` when truthy. -/
def errorMessageOf : Option CdpError → String
  | some e => e.message.getD ""
  | none => ""

/-- The settlement of the pending promise matched by a frame. -/
inductive Settlement where
  | resolved (id : Nat) (result : Option String)
  | rejected (id : Nat) (msg : String)
deriving Repr, DecidableEq

/-- The handler invocations performed for a frame (lines 1739-1742):
`if (msg.method) { handlers = eventHandlers.get(msg.method); if (handlers)
handlers.forEach(h => h(msg.params)) }`.  Handlers are identified by
opaque numbers; the registry maps a method to its handler set. -/
def frameInvocations (handlers : List (String × List Nat)) (msg : Frame) :
    List (Nat × Option String) :=
  if methodTruthy msg.method then
    match handlers.find? (fun h => some h.1 = msg.method) with
    | some h => h.2.map (fun hid => (hid, msg.params))
    | none => []
  else []

/-- The `message` listener (lines 1734-1754).  `raw = none` models a frame
`JSON.parse` throws on; the surrounding `try {} catch {}` then drops it.
Returns the new state, the handler invocations, and the settlement of the
matched pending command, if any. -/
def onMessage (st : CdpState) (handlers : List (String × List Nat))
    (raw : Option Frame) :
    CdpState × List (Nat × Option String) × Option Settlement :=
  match raw with
  | none => (st, [], none)
  | some msg =>
    let invocations := frameInvocations handlers msg
    match msg.id with
    | some i =>
      if i ≠ 0 then
        match lookupPending st.pending i with
        | some _entry =>
          let st' := { st with pending := erasePending st.pending i }
          if errorMessageTruthy msg.error then
            (st', invocations, some (.rejected i (errorMessageOf msg.error)))
          else
            (st', invocations, some (.resolved i msg.result))
        | none => (st, invocations, none)
      else (st, invocations, none)
    | none => (st, invocations, none)

/-! ### Visibility predicates and file-input scoring
(wechat-browser.ts lines 1031-1063, 1296-1308, 1322-1382)

An element is abstracted into its bounding-box dimensions (CSS pixels are
fractional, hence `Rat`) and the three computed-style strings the checks
read. -/

/-- Bounding box and computed style of an element. -/
structure ElementView where
  width : Rat
  height : Rat
  display : String
  visibility : String
  opacity : String
deriving Repr, DecidableEq

/-- The computed-style part shared by every check:
`st.display !== 'none' && st.visibility !== 'hidden' && st.opacity !== '0'`. -/
def styleVisible (e : ElementView) : Bool :=
  e.display ≠ "none" && e.visibility ≠ "hidden" && e.opacity ≠ "0"

/-- The `isVisible` closure used by `clickBySelectors` (lines 1035-1041)
and repeated verbatim at lines 272-278, 380-385, 480-486, 546-551,
591-596, 649-654, 720-725, 771-776, 817-822, 863-868, 918-923, 947-952,
980-985, 1095-1101: `if (!r || r.width < 2 || r.height < 2) return false;
return st.display !== 'none' && st.visibility !== 'hidden' &&
st.opacity !== '0';`. -/
def isVisibleClick (e : ElementView) : Bool :=
  if e.width < 2 || e.height < 2 then false
  else styleVisible e

/-- The `isVisible` closure of `findBestFileInputNodeIds`
(lines 1330-1337): style first, then `r.width > 1 && r.height > 1`. -/
def isVisibleFileInput (e : ElementView) : Bool :=
  if e.display = "none" || e.visibility = "hidden" || e.opacity = "0" then
    false
  else e.width > 1 && e.height > 1

/-- The `visible` field computed by `dumpComposeDiagnostics` (line 1303):
style and strictly `r.width > 2 && r.height > 2`. -/
def diagPickVisible (e : ElementView) : Bool :=
  styleVisible e && e.width > 2 && e.height > 2

/-- Modelled from the spec's words for C7 (refinement comparison only):
"an element counts as interactable if and only if its bounding box has
width and height ≥ 2px and its computed style has non-none display,
non-hidden visibility, and non-zero opacity". -/
def specInteractable (e : ElementView) : Bool :=
  e.width ≥ 2 && e.height ≥ 2 && e.display ≠ "none" &&
    e.visibility ≠ "hidden" && e.opacity ≠ "0"

/-- A candidate `<input type=file>` as `findBestFileInputNodeIds` sees it
(lines 1341-1349). -/
structure FileInputNode where
  view : ElementView
  /-- `input.closest('#js_cover_description_area')` (line 1343). -/
  inCoverArea : Bool
  /-- `input.closest('.select-cover,.first_appmsg_cover,.cover_drop_inner_wrp')`
  (line 1344). -/
  inSelectCover : Bool
  /-- `input.closest('.weui-desktop-dialog,.weui-desktop-popover,[role="dialog"]')`
  (line 1345). -/
  inDialog : Bool
  accept : String
  disabled : Bool
  multiple : Bool
deriving Repr, DecidableEq

/-- JavaScript `hay.indexOf(ned)`: the first index at which `ned` occurs
in `hay`, if any. -/
def findSubIdx (ned : List Char) : List Char → Option Nat
  | [] => if ned.isPrefixOf ([] : List Char) then some 0 else none
  | c :: t =>
    if ned.isPrefixOf (c :: t) then some 0
    else (findSubIdx ned t).map (· + 1)

/-- `(input.accept || '').toLowerCase().includes('image')` (line 1346);
lower-casing character-wise. -/
def acceptsImage (accept : String) : Bool :=
  (findSubIdx "image".toList (accept.toList.map Char.toLower)).isSome

/-- The score assigned to a candidate file input (lines 1342-1349). -/
def score (n : FileInputNode) : Nat :=
  (if n.inCoverArea then 140 else 0) +
    (if n.inSelectCover then 100 else 0) +
    (if n.inDialog then 120 else 0) +
    (if acceptsImage n.accept then 50 else 0) +
    (if !n.disabled then 20 else 0) +
    (if isVisibleFileInput n.view then 40 else 0) +
    (if n.multiple then 5 else 0)

/-- Modelled from the spec's words for C6 (refinement comparison only):
"a score that is exactly the sum of +140 if inside the dedicated
cover/upload container, +120 if inside a modal dialog, +50 if it accepts
image mime types, +40 if currently visible, and +20 if not disabled (and
nothing else)". -/
def specScore (n : FileInputNode) : Nat :=
  (if n.inCoverArea then 140 else 0) +
    (if n.inDialog then 120 else 0) +
    (if acceptsImage n.accept then 50 else 0) +
    (if isVisibleFileInput n.view then 40 else 0) +
    (if !n.disabled then 20 else 0)

/-- The best-candidate fold of `findBestFileInputNodeIds`
(lines 1338-1366): `best = null; bestScore = -1;` then
`if (score > bestScore) { best = input; bestScore = score; }` over the
candidates in document order.  The returned `best` is the node that is
marked and subsequently receives `DOM.setFileInputFiles`
(lines 1368, 2245-2250). -/
def findBestFileInput (nodes : List FileInputNode) :
    Option FileInputNode × Int :=
  nodes.foldl
    (fun acc input =>
      if (score input : Int) > acc.2 then (some input, (score input : Int))
      else acc)
    (none, -1)

end WechatBrowser

namespace WechatArticle

/-! ### wechat-article.ts: placeholder selection and the image loop
(lines 338-403 and 662-691)

A text node is a list of characters; the editor, when present, is its
list of text nodes in tree-walker order.  `selectAndReplacePlaceholder`
walks the nodes, builds a DOM range over the first match (exact or
normalized) and returns the result of comparing the live selection's text
against the placeholder. -/

/-- `normalize` (line 345):
`value.replace(/[^a-zA-Z0-9]+/g, '').toLowerCase()`. -/
def normalize (l : List Char) : List Char :=
  (l.filter Char.isAlphanum).map Char.toLower

/-- The raw-offset scan of the normalized match (lines 369-382): walk the
node text, counting alphanumeric characters; record `rawStart` at count
`normIdx` and stop with `rawEnd = i + 1` at count
`normIdx + needle.length - 1`.  Returns `none` when the loop ends without
setting both (the JS code then falls through to the next node). -/
def scanRaw (normIdx needLen : Nat) :
    List Char → Nat → Nat → Option Nat → Option (Nat × Nat)
  | [], _, _, _ => none
  | ch :: rest, i, count, rawStart? =>
    if ch.isAlphanum then
      let rawStart' :=
        if count = normIdx && rawStart?.isNone then some i else rawStart?
      if count = normIdx + needLen - 1 then
        match rawStart' with
        | some s => some (s, i + 1)
        | none => none
      else scanRaw normIdx needLen rest (i + 1) (count + 1) rawStart'
    else scanRaw normIdx needLen rest (i + 1) count rawStart?

/-- What the walker does at one text node (lines 350-394): try the exact
`indexOf`, then the normalized match; `some (start, end, check)` means a
range was selected and `check` is the round-trip comparison the function
returns; `none` means the walker moves to the next node. -/
def selectOutcomeInNode (ph text : List Char) : Option (Nat × Nat × Bool) :=
  match WechatBrowser.findSubIdx ph text with
  | some idx =>
    some (idx, idx + ph.length,
      decide ((text.drop idx).take ph.length = ph))
  | none =>
    if normalize ph = [] then none
    else
      match WechatBrowser.findSubIdx (normalize ph) (normalize text) with
      | some normIdx =>
        match scanRaw normIdx (normalize ph).length text 0 0 none with
        | some (s, e) =>
          some (s, e,
            decide (normalize ((text.drop s).take (e - s)) = normalize ph))
        | none => none
      | none => none

/-- A selected DOM range: node index in walker order and offsets. -/
structure SelectionRange where
  nodeIdx : Nat
  startOff : Nat
  endOff : Nat
deriving Repr, DecidableEq

/-- The tree-walker loop (lines 350-395). -/
def walkNodes (ph : List Char) :
    List (List Char) → Nat → Option (SelectionRange × Bool)
  | [], _ => none
  | text :: rest, n =>
    match selectOutcomeInNode ph text with
    | some (s, e, b) => some (⟨n, s, e⟩, b)
    | none => walkNodes ph rest (n + 1)

/-- `selectAndReplacePlaceholder` (lines 338-403): `false` when the
`.ProseMirror` editor is absent or no node matches; otherwise the
round-trip comparison result, together with the selection made. -/
def selectAndReplacePlaceholder (editor : Option (List (List Char)))
    (ph : List Char) : Bool × Option SelectionRange :=
  match editor with
  | none => (false, none)
  | some nodes =>
    match walkNodes ph nodes 0 with
    | some (r, b) => (b, some r)
    | none => (false, none)

/-- The text of a selection, as `sel.toString()` reads it back. -/
def extractRange (nodes : List (List Char)) (r : SelectionRange) :
    List Char :=
  ((nodes.getD r.nodeIdx []).drop r.startOff).take (r.endOff - r.startOff)

/-- Observable steps of the image-insertion loop of `postArticle`. -/
inductive ArticleEvent where
  | selectPlaceholder (i : Nat) (ok : Bool)
  | copyImage (i : Nat)
  | deletePlaceholder (i : Nat)
  | pasteImage (i : Nat)
deriving Repr, DecidableEq

/-- The image-insertion loop (lines 662-691): for image `i`, call
`selectAndReplacePlaceholder`; on `false`, warn and `continue` — the image
is skipped; on `true`, copy the image, delete the selected placeholder and
paste.  `editorAt i` is the editor's text-node content when iteration `i`
runs (the DOM mutates between iterations). -/
def insertImagesLoop (editorAt : Nat → Option (List (List Char)))
    (placeholders : List (List Char)) : List ArticleEvent :=
  placeholders.enum.flatMap fun p =>
    let found := (selectAndReplacePlaceholder (editorAt p.1) p.2).1
    ArticleEvent.selectPlaceholder p.1 found ::
      (if found then
        [ArticleEvent.copyImage p.1, ArticleEvent.deletePlaceholder p.1,
          ArticleEvent.pasteImage p.1]
      else [])

end WechatArticle

namespace WechatBrowser

/-! ### Theorems for C1 -/

theorem waitLoop_success_conditions (expectedCount timeoutMs : Nat) :
    ∀ (trace : List UploadTick) (best e : Nat) (s : UploadSample),
      waitLoop expectedCount timeoutMs trace best = .success e s →
      e ≥ minWaitMs ∧ (s.count ≥ expectedCount ∨ s.hasCoverStyle = true) ∧
        s.uploading = 0
  | [], best, e, s, h => by simp [waitLoop] at h
  | t :: rest, best, e, s, h => by
    by_cases hc : t.checkElapsed < timeoutMs
    · simp only [waitLoop, if_pos hc] at h
      by_cases hg :
          (decide (t.sampleElapsed ≥ minWaitMs) &&
            (decide (t.sample.count ≥ expectedCount) || t.sample.hasCoverStyle) &&
            decide (t.sample.uploading = 0)) = true
      · rw [if_pos hg] at h
        cases h
        simp only [Bool.and_eq_true, Bool.or_eq_true, decide_eq_true_eq] at hg
        exact ⟨hg.1.1, hg.1.2, hg.2⟩
      · rw [if_neg hg] at h
        exact waitLoop_success_conditions expectedCount timeoutMs rest _ e s h
    · simp [waitLoop, if_neg hc] at h

/-- C1: `waitForImagesUploaded` returns on the success path only when, at
the successful sample, elapsed time is at least the 8000 ms minimum-wait
floor, the sampled maximum count reaches the expected count or the
valid-cover boolean is true, and the uploading-indicator count is 0; in
particular success is never reported before the floor elapses, even if the
count already satisfies the expected count at the first sample. -/
theorem C1_waitForImagesUploaded_success_requires_floor_signal_idle
    (expectedCount timeoutMs : Nat) (trace : List UploadTick)
    (e : Nat) (s : UploadSample)
    (h : waitForImagesUploaded expectedCount timeoutMs trace = .success e s) :
    e ≥ 8000 ∧ (s.count ≥ expectedCount ∨ s.hasCoverStyle = true) ∧
      s.uploading = 0 :=
  waitLoop_success_conditions expectedCount timeoutMs trace 0 e s h

/-- Witness for C1: a concrete trace whose first sample already satisfies
the expected count at elapsed 0 but which only succeeds at a later tick,
past the 8000 ms floor. -/
theorem C1_witness :
    waitForImagesUploaded 1 45000
        [⟨0, 5, ⟨1, 0, false⟩⟩, ⟨8400, 8405, ⟨1, 0, false⟩⟩] =
      .success 8405 ⟨1, 0, false⟩ ∧
    (8405 ≥ 8000 ∧ ((1 : Nat) ≥ 1 ∨ false = true) ∧ (0 : Nat) = 0) :=
  ⟨by decide,
   C1_waitForImagesUploaded_success_requires_floor_signal_idle 1 45000
     [⟨0, 5, ⟨1, 0, false⟩⟩, ⟨8400, 8405, ⟨1, 0, false⟩⟩] 8405 ⟨1, 0, false⟩
     (by decide)⟩

/-! ### Theorems for C2 -/

theorem waitLoop_grace_is_6000 (expectedCount timeoutMs : Nat) :
    ∀ (trace : List UploadTick) (best b g : Nat),
      waitLoop expectedCount timeoutMs trace best = .timedOutGrace b g →
      g = 6000
  | [], best, b, g, h => by
    simp only [waitLoop, WaitOutcome.timedOutGrace.injEq] at h
    exact h.2.symm
  | t :: rest, best, b, g, h => by
    by_cases hc : t.checkElapsed < timeoutMs
    · simp only [waitLoop, if_pos hc] at h
      by_cases hg :
          (decide (t.sampleElapsed ≥ minWaitMs) &&
            (decide (t.sample.count ≥ expectedCount) || t.sample.hasCoverStyle) &&
            decide (t.sample.uploading = 0)) = true
      · rw [if_pos hg] at h; cases h
      · rw [if_neg hg] at h
        exact waitLoop_grace_is_6000 expectedCount timeoutMs rest _ b g h
    · simp only [waitLoop, if_neg hc, WaitOutcome.timedOutGrace.injEq] at h
      exact h.2.symm

/-- C2 counterexample: an environment in which the error-signal scan never
finds a match (`finalIssue = none`) and yet the upload step raises a hard
failure, because the image-text readiness verification is negative.  This
refutes "a hard failure of the upload step is raised only if the
error-signal scan finds a positive match". -/
theorem C2_counterexample :
    finalIssue
        ⟨false, ⟨none, true, false⟩, ⟨none, false, false⟩, false, none,
          false, false, false, false⟩ ["img.png"] = none ∧
      (uploadPhase
          ⟨false, ⟨none, true, false⟩, ⟨none, false, false⟩, false, none,
            false, false, false, false⟩ ["img.png"]).2 =
        .error "Image upload failed" := by
  constructor <;> rfl

/-- C2 (amended): when the verifier's overall timeout expires without a
positive signal the flow does not fail there: it returns the timed-out
outcome carrying the best count observed after a fixed 6000 ms grace
sleep; the upload phase then raises a hard failure exactly when, at the
final check, the error-signal scan reports a match or the flow-specific
readiness verification is negative. -/
theorem C2_timeout_grace_and_failure_condition :
    (∀ (expectedCount timeoutMs : Nat) (trace : List UploadTick) (b g : Nat),
        waitForImagesUploaded expectedCount timeoutMs trace =
          .timedOutGrace b g → g = 6000) ∧
      (∀ (env : UploadEnv) (paths : List String),
        (uploadPhase env paths).2 = .ok () ↔
          finalIssue env paths = none ∧ uploadOk env paths = true) := by
  refine ⟨fun e tm tr b g h => waitLoop_grace_is_6000 e tm tr 0 b g h,
    fun env paths => ?_⟩
  unfold uploadPhase
  by_cases hi : (finalIssue env paths).isSome
  · rw [Option.isSome_iff_exists] at hi
    obtain ⟨m, hm⟩ := hi
    simp [hm]
  · rw [Option.not_isSome_iff_eq_none] at hi
    by_cases ho : uploadOk env paths
    · simp [hi, ho]
    · simp [hi, Bool.eq_false_iff.mpr ho]

/-- Witness for C2: the grace constant at a concrete timed-out trace and
the failure-check equivalence at a concrete succeeding environment. -/
theorem C2_witness :
    (6000 : Nat) = 6000 ∧
      ((uploadPhase
          ⟨false, ⟨none, true, false⟩, ⟨none, false, false⟩, false, none,
            false, false, false, true⟩ ["a"]).2 = .ok () ↔
        finalIssue
            ⟨false, ⟨none, true, false⟩, ⟨none, false, false⟩, false, none,
              false, false, false, true⟩ ["a"] = none ∧
          uploadOk
              ⟨false, ⟨none, true, false⟩, ⟨none, false, false⟩, false, none,
                false, false, false, true⟩ ["a"] = true) :=
  ⟨C2_timeout_grace_and_failure_condition.1 3 100 [] 0 6000 (by decide),
   C2_timeout_grace_and_failure_condition.2 _ _⟩

/-! ### Theorems for C9 -/

/-- C9 counterexample: in a non-sticker run whose first attempt reports an
upload issue, the single retry re-resolves the file input with
`findAllFileInputNodeIds` (every `input[type=file]`), not with the scoring
heuristic `findBestFileInputNodeIds` used on the first attempt.  This
refutes "re-resolves the file input by the same scoring heuristic". -/
theorem C9_counterexample :
    uploadEvents
        ⟨false, ⟨some "上传失败", false, false⟩, ⟨none, true, false⟩, false,
          none, false, false, false, true⟩ ["a.png"] =
      [.assignFiles .bestScored ["a.png"], .assignFiles .allInputs ["a.png"]] ∧
      InputResolver.allInputs ≠ InputResolver.bestScored := by
  constructor
  · rfl
  · decide

/-- C9 (amended): if an error signal is found after the first upload
attempt, the orchestrator performs exactly one automatic retry — the
number of file assignments is 2 when the first probe reports an issue and
1 otherwise, so no further automatic retry ever occurs; the retry
re-resolves the file input with the top-image resolver in the sticker flow
and with the all-file-inputs fallback (not the scoring heuristic) in the
non-sticker flow; a remaining issue or failed verification surfaces a
user-facing failure. -/
theorem C9_single_retry_and_failure_surface
    (env : UploadEnv) (paths : List String) :
    ((uploadEvents env paths).filter UploadEvent.isAssign).length =
        (if retryTriggered env then 2 else 1) ∧
      (retryTriggered env = true →
        (uploadEvents env paths).get? 1 =
          some (.assignFiles
            (if env.isStickerFlow then .topImage else .allInputs)
            (uploadFilesFor env paths))) ∧
      ((finalIssue env paths).isSome = true ∨ uploadOk env paths = false →
        (uploadPhase env paths).2 =
          .error (uploadFailureMsg (finalIssue env paths))) := by
  refine ⟨?_, ?_, ?_⟩
  · by_cases hr : retryTriggered env <;>
      by_cases hcf : clipboardFallbackRuns env paths <;>
        simp [uploadEvents, hr, hcf, UploadEvent.isAssign]
  · intro hr
    simp [uploadEvents, hr, retryResolver]
  · intro h
    unfold uploadPhase
    rcases h with h | h
    · simp [h]
    · simp [h]

/-- Witness for C9: concrete issue-reporting environment, evaluated. -/
theorem C9_witness :
    ((uploadEvents
        ⟨false, ⟨some "x", false, false⟩, ⟨some "x", true, false⟩, false,
          none, false, false, false, true⟩ ["a.png"]).filter
          UploadEvent.isAssign).length =
        (if retryTriggered
            ⟨false, ⟨some "x", false, false⟩, ⟨some "x", true, false⟩, false,
              none, false, false, false, true⟩ then 2 else 1) ∧
      (retryTriggered
          ⟨false, ⟨some "x", false, false⟩, ⟨some "x", true, false⟩, false,
            none, false, false, false, true⟩ = true →
        (uploadEvents
            ⟨false, ⟨some "x", false, false⟩, ⟨some "x", true, false⟩, false,
              none, false, false, false, true⟩ ["a.png"]).get? 1 =
          some (.assignFiles
            (if (false : Bool) then .topImage else .allInputs)
            (uploadFilesFor
              ⟨false, ⟨some "x", false, false⟩, ⟨some "x", true, false⟩, false,
                none, false, false, false, true⟩ ["a.png"]))) ∧
      ((finalIssue
            ⟨false, ⟨some "x", false, false⟩, ⟨some "x", true, false⟩, false,
              none, false, false, false, true⟩ ["a.png"]).isSome = true ∨
          uploadOk
              ⟨false, ⟨some "x", false, false⟩, ⟨some "x", true, false⟩, false,
                none, false, false, false, true⟩ ["a.png"] = false →
        (uploadPhase
            ⟨false, ⟨some "x", false, false⟩, ⟨some "x", true, false⟩, false,
              none, false, false, false, true⟩ ["a.png"]).2 =
          .error (uploadFailureMsg (finalIssue
            ⟨false, ⟨some "x", false, false⟩, ⟨some "x", true, false⟩, false,
              none, false, false, false, true⟩ ["a.png"]))) :=
  C9_single_retry_and_failure_surface _ _

/-! ### Theorems for C10 -/

/-- C10: every `setFileInputFiles` assignment of the upload phase — first
attempt and retry alike — carries exactly the first image in the sticker
flow, and the full image list in the non-sticker flow. -/
theorem C10_sticker_flow_only_first_image
    (env : UploadEnv) (p : String) (rest : List String)
    (r : InputResolver) (fs : List String)
    (h : UploadEvent.assignFiles r fs ∈ uploadEvents env (p :: rest)) :
    fs = (if env.isStickerFlow then [p] else p :: rest) := by
  have hfiles : uploadFilesFor env (p :: rest) =
      (if env.isStickerFlow then [p] else p :: rest) := by
    by_cases hs : env.isStickerFlow <;> simp [uploadFilesFor, hs]
  rw [← hfiles]
  simp only [uploadEvents, List.mem_append, List.mem_singleton] at h
  rcases h with (h | h) | h
  · cases h; rfl
  · by_cases hr : retryTriggered env
    · simp [hr] at h; exact h.2
    · simp [hr] at h
  · by_cases hcf : clipboardFallbackRuns env (p :: rest)
    · simp [hcf] at h
    · simp [hcf] at h

/-! ### Theorems for C6 and C7 -/

/-- C6 counterexample: a file input inside a secondary cover container
(`.select-cover`/`.first_appmsg_cover`/`.cover_drop_inner_wrp`) with the
`multiple` attribute scores 125 (100 + 20 + 5), while the sum the claim
describes yields 20 — the code's score has the +100 container term and the
+5 multiple term the claim omits. -/
theorem C6_counterexample :
    score ⟨⟨0, 0, "none", "visible", "1"⟩, false, true, false, "", false,
        true⟩ = 125 ∧
      specScore ⟨⟨0, 0, "none", "visible", "1"⟩, false, true, false, "",
          false, true⟩ = 20 ∧
      score ⟨⟨0, 0, "none", "visible", "1"⟩, false, true, false, "", false,
          true⟩ ≠
        specScore ⟨⟨0, 0, "none", "visible", "1"⟩, false, true, false, "",
            false, true⟩ := by
  refine ⟨by decide, by decide, by decide⟩

theorem findBest_foldl_spec (nodes : List FileInputNode) :
    ∀ (acc : Option FileInputNode × Int),
      acc.2 ≤ (nodes.foldl
          (fun acc input =>
            if (score input : Int) > acc.2 then
              (some input, (score input : Int))
            else acc) acc).2 ∧
        (∀ m ∈ nodes, (score m : Int) ≤ (nodes.foldl
          (fun acc input =>
            if (score input : Int) > acc.2 then
              (some input, (score input : Int))
            else acc) acc).2) ∧
        ((nodes.foldl
            (fun acc input =>
              if (score input : Int) > acc.2 then
                (some input, (score input : Int))
              else acc) acc) = acc ∨
          ∃ best ∈ nodes, (nodes.foldl
              (fun acc input =>
                if (score input : Int) > acc.2 then
                  (some input, (score input : Int))
                else acc) acc).1 = some best ∧
            (nodes.foldl
                (fun acc input =>
                  if (score input : Int) > acc.2 then
                    (some input, (score input : Int))
                  else acc) acc).2 = (score best : Int)) := by
  induction nodes with
  | nil => intro acc; exact ⟨le_refl _, by simp, Or.inl rfl⟩
  | cons n rest ih =>
    intro acc
    simp only [List.foldl_cons]
    by_cases hn : (score n : Int) > acc.2
    · rw [if_pos hn]
      obtain ⟨hle, hmax, hbest⟩ := ih (some n, (score n : Int))
      refine ⟨le_trans (le_of_lt hn) hle, ?_, ?_⟩
      · intro m hm
        rcases List.mem_cons.mp hm with rfl | hm
        · exact hle
        · exact hmax m hm
      · rcases hbest with heq | ⟨best, hb, h1, h2⟩
        · exact Or.inr ⟨n, List.mem_cons_self n rest, by rw [heq], by rw [heq]⟩
        · exact Or.inr ⟨best, List.mem_cons_of_mem n hb, h1, h2⟩
    · rw [if_neg hn]
      obtain ⟨hle, hmax, hbest⟩ := ih acc
      refine ⟨hle, ?_, ?_⟩
      · intro m hm
        rcases List.mem_cons.mp hm with rfl | hm
        · exact le_trans (le_of_not_lt hn) hle
        · exact hmax m hm
      · rcases hbest with heq | ⟨best, hb, h1, h2⟩
        · exact Or.inl heq
        · exact Or.inr ⟨best, List.mem_cons_of_mem n hb, h1, h2⟩

/-- C6 (amended): the score of a candidate file input is the sum of +140
if inside `#js_cover_description_area`, +100 if inside a secondary cover
container, +120 if inside a modal dialog, +50 if it accepts image mime
types, +20 if not disabled, +40 if visible, and +5 if `multiple`; the
selection picks a candidate attaining the highest such score, and that
marked node receives the file list. -/
theorem C6_highest_score_selected
    (nodes : List FileInputNode) (hne : nodes ≠ []) :
    ∃ best, (findBestFileInput nodes).1 = some best ∧ best ∈ nodes ∧
      (findBestFileInput nodes).2 = (score best : Int) ∧
      ∀ m ∈ nodes, (score m : Int) ≤ (score best : Int) := by
  cases nodes with
  | nil => exact absurd rfl hne
  | cons n rest =>
    have hstep : findBestFileInput (n :: rest) =
        rest.foldl
          (fun acc input =>
            if (score input : Int) > acc.2 then
              (some input, (score input : Int))
            else acc) (some n, (score n : Int)) := by
      have hpos : (score n : Int) > (-1 : Int) :=
        lt_of_lt_of_le (by norm_num) (Int.natCast_nonneg _)
      simp only [findBestFileInput, List.foldl_cons, if_pos hpos]
    obtain ⟨hle, hmax, hbest⟩ := findBest_foldl_spec rest (some n, (score n : Int))
    rcases hbest with heq | ⟨best, hb, h1, h2⟩
    · refine ⟨n, ?_, List.mem_cons_self n rest, ?_, ?_⟩
      · rw [hstep, heq]
      · rw [hstep, heq]
      · intro m hm
        rcases List.mem_cons.mp hm with rfl | hm
        · exact le_refl _
        · have := hmax m hm; rw [heq] at this; exact this
    · refine ⟨best, ?_, List.mem_cons_of_mem n hb, ?_, ?_⟩
      · rw [hstep]; exact h1
      · rw [hstep]; exact h2
      · intro m hm
        rcases List.mem_cons.mp hm with rfl | hm
        · rw [← h2]; exact hle
        · rw [← h2]; exact hmax m hm

/-- Witness for C6: two concrete candidates; the dialog-resident,
image-accepting one wins. -/
theorem C6_witness :
    ∃ best,
      (findBestFileInput
          [⟨⟨0, 0, "block", "visible", "1"⟩, false, false, false, "", false,
            false⟩,
           ⟨⟨10, 10, "block", "visible", "1"⟩, false, false, true, "image/*",
            false, false⟩]).1 = some best ∧
        best ∈
          [⟨⟨0, 0, "block", "visible", "1"⟩, false, false, false, "", false,
            false⟩,
           ⟨⟨10, 10, "block", "visible", "1"⟩, false, false, true, "image/*",
            false, false⟩] ∧
        (findBestFileInput
            [⟨⟨0, 0, "block", "visible", "1"⟩, false, false, false, "", false,
              false⟩,
             ⟨⟨10, 10, "block", "visible", "1"⟩, false, false, true, "image/*",
              false, false⟩]).2 = (score best : Int) ∧
        ∀ m ∈
          [⟨⟨0, 0, "block", "visible", "1"⟩, false, false, false, "", false,
            false⟩,
           ⟨⟨10, 10, "block", "visible", "1"⟩, false, false, true, "image/*",
            false, false⟩],
          (score m : Int) ≤ (score best : Int) :=
  C6_highest_score_selected _ (by simp)

/-- C7 counterexample: the file-input scoring visibility accepts a
1.5 px × 1.5 px element that the claimed single ≥ 2 px predicate rejects,
and a `display:none` file input is still selected by the scoring (it
receives the file list), so the single-predicate invariant fails. -/
theorem C7_counterexample :
    isVisibleFileInput ⟨3/2, 3/2, "block", "visible", "1"⟩ = true ∧
      specInteractable ⟨3/2, 3/2, "block", "visible", "1"⟩ = false ∧
      (findBestFileInput
          [⟨⟨0, 0, "none", "visible", "1"⟩, false, false, false, "image/*",
            false, false⟩]).1 =
        some ⟨⟨0, 0, "none", "visible", "1"⟩, false, false, false, "image/*",
          false, false⟩ ∧
      (⟨⟨0, 0, "none", "visible", "1"⟩, false, false, false, "image/*",
          false, false⟩ : FileInputNode).view.display = "none" := by
  refine ⟨?_, ?_, by decide, rfl⟩
  · unfold isVisibleFileInput
    rw [if_neg (by decide)]
    simp only [Bool.and_eq_true, decide_eq_true_eq]
    constructor <;> norm_num
  · unfold specInteractable
    have : ¬((3 : Rat)/2 ≥ 2) := by norm_num
    simp [this]

/-- C7 (amended): the shared click/selection predicate — used by
`clickBySelectors`, `detectImageUploadIssue`, the editor pickers, dialog
resolution and upload verification — holds exactly when width and height
are ≥ 2 px and the computed style has non-none display, non-hidden
visibility and opacity other than `'0'`; the file-input scoring instead
uses a strict > 1 px variant and applies it only as a score bonus, never
as a filter, so even a sole `display:none` candidate is selected; and the
compose-diagnostics dump uses a strict > 2 px variant. -/
theorem C7_visibility_predicates (e : ElementView) :
    (isVisibleClick e = true ↔
        (2 ≤ e.width ∧ 2 ≤ e.height ∧ e.display ≠ "none" ∧
          e.visibility ≠ "hidden" ∧ e.opacity ≠ "0")) ∧
      (isVisibleFileInput e = true ↔
        (1 < e.width ∧ 1 < e.height ∧ e.display ≠ "none" ∧
          e.visibility ≠ "hidden" ∧ e.opacity ≠ "0")) ∧
      (diagPickVisible e = true ↔
        (2 < e.width ∧ 2 < e.height ∧ e.display ≠ "none" ∧
          e.visibility ≠ "hidden" ∧ e.opacity ≠ "0")) ∧
      (∀ n : FileInputNode, (findBestFileInput [n]).1 = some n) := by
  refine ⟨?_, ?_, ?_, ?_⟩
  · unfold isVisibleClick styleVisible
    by_cases hw : e.width < 2 || e.height < 2
    · rw [if_pos hw]
      simp only [Bool.or_eq_true, decide_eq_true_eq] at hw
      simp only [Bool.false_eq_true, false_iff]
      rintro ⟨h1, h2, -⟩
      rcases hw with hw | hw
      · exact absurd h1 (not_le.mpr hw)
      · exact absurd h2 (not_le.mpr hw)
    · rw [if_neg hw]
      simp only [Bool.or_eq_true, decide_eq_true_eq, not_or, not_lt] at hw
      simp only [Bool.and_eq_true, decide_eq_true_eq, bne_iff_ne]
      constructor
      · rintro ⟨⟨h1, h2⟩, h3⟩; exact ⟨hw.1, hw.2, h1, h2, h3⟩
      · rintro ⟨-, -, h1, h2, h3⟩; exact ⟨⟨h1, h2⟩, h3⟩
  · unfold isVisibleFileInput
    by_cases hs : e.display = "none" || e.visibility = "hidden" ||
        e.opacity = "0"
    · rw [if_pos hs]
      simp only [Bool.or_eq_true, decide_eq_true_eq] at hs
      simp only [Bool.false_eq_true, false_iff]
      rintro ⟨-, -, h1, h2, h3⟩
      rcases hs with (hs | hs) | hs
      · exact h1 hs
      · exact h2 hs
      · exact h3 hs
    · rw [if_neg hs]
      simp only [Bool.or_eq_true, decide_eq_true_eq, not_or] at hs
      simp only [Bool.and_eq_true, decide_eq_true_eq]
      constructor
      · rintro ⟨h1, h2⟩; exact ⟨h1, h2, hs.1.1, hs.1.2, hs.2⟩
      · rintro ⟨h1, h2, -⟩; exact ⟨h1, h2⟩
  · unfold diagPickVisible styleVisible
    simp only [Bool.and_eq_true, decide_eq_true_eq, bne_iff_ne]
    constructor
    · rintro ⟨⟨⟨⟨h1, h2⟩, h3⟩, h4⟩, h5⟩; exact ⟨h4, h5, h1, h2, h3⟩
    · rintro ⟨h1, h2, h3, h4, h5⟩; exact ⟨⟨⟨⟨h3, h4⟩, h5⟩, h1⟩, h2⟩
  · intro n
    have hpos : (score n : Int) > (-1 : Int) :=
      lt_of_lt_of_le (by norm_num) (Int.natCast_nonneg _)
    simp only [findBestFileInput, List.foldl_cons, List.foldl_nil, if_pos hpos]

/-! ### Theorems for C3, C4, C5 -/

theorem lookupPending_append_fresh (l : List (Nat × PendingEntry))
    (id : Nat) (e : PendingEntry) (h : ∀ p ∈ l, p.1 ≠ id) :
    lookupPending (l ++ [(id, e)]) id = some e := by
  induction l with
  | nil => simp [lookupPending]
  | cons hd tl ih =>
    have hhd : hd.1 ≠ id := h hd (List.mem_cons_self hd tl)
    simp only [lookupPending, List.cons_append, List.find?]
    rw [show (decide (hd.1 = id)) = false by simp [hhd]]
    exact ih (fun p hp => h p (List.mem_cons_of_mem hd hp))

theorem lookupPending_erase (l : List (Nat × PendingEntry)) (id : Nat) :
    lookupPending (erasePending l id) id = none := by
  induction l with
  | nil => simp [lookupPending, erasePending]
  | cons hd tl ih =>
    by_cases hhd : hd.1 = id
    · simp only [erasePending, List.filter] at ih ⊢
      rw [show (decide (hd.1 ≠ id)) = false by simp [hhd]]
      exact ih
    · simp only [erasePending, List.filter] at ih ⊢
      rw [show (decide (hd.1 ≠ id)) = true by simp [hhd]]
      simp only [lookupPending, List.find?] at ih ⊢
      rw [show (decide (hd.1 = id)) = false by simp [hhd]]
      exact ih

theorem timeoutMsg_contains (method : String) :
    ("timeout: " ++ method).data <:+: (cdpTimeoutMsg method).data := by
  refine ⟨"CDP ".data, [], ?_⟩
  show "CDP ".data ++ ("timeout: " ++ method).data ++ [] =
    ("CDP timeout: " ++ method).data
  simp [String.data_append]

/-- C3: `CdpConnection.send` arms the per-command timer with the per-call
timeout if given, else 15000 ms, and a timeout of 0 yields no timer; when
the timer fires, the command's entry is removed from the pending map, its
promise is rejected with a message containing `timeout: <method>`, and the
WebSocket is left untouched. -/
theorem C3_send_timer_and_timeout_rejection
    (st : CdpState) (method : String) (optTimeoutMs : Option Nat)
    (hfresh : ∀ p ∈ st.pending, p.1 ≤ st.nextId) :
    lookupPending (send st method optTimeoutMs).1.pending
        (send st method optTimeoutMs).2 =
      some ⟨method,
        if optTimeoutMs.getD 15000 > 0 then some (optTimeoutMs.getD 15000)
        else none⟩ ∧
      armedTimer (some 0) = none ∧
      lookupPending
          (fireTimeout (send st method optTimeoutMs).1
            (send st method optTimeoutMs).2 method).1.pending
          (send st method optTimeoutMs).2 = none ∧
      ("timeout: " ++ method).data <:+:
        (fireTimeout (send st method optTimeoutMs).1
          (send st method optTimeoutMs).2 method).2.msg.data ∧
      (fireTimeout (send st method optTimeoutMs).1
          (send st method optTimeoutMs).2 method).1.wsClosed = st.wsClosed := by
  refine ⟨?_, rfl, ?_, timeoutMsg_contains method, rfl⟩
  · show lookupPending (st.pending ++ [(st.nextId + 1,
        ⟨method, armedTimer optTimeoutMs⟩)]) (st.nextId + 1) = _
    rw [lookupPending_append_fresh _ _ _
      (fun p hp => Nat.ne_of_lt (Nat.lt_succ_of_le (hfresh p hp)))]
    rfl
  · exact lookupPending_erase _ _

/-- Witness for C3: a concrete connection state, a 0 timeout disabling the
timer, and the fired-timer effects evaluated. -/
theorem C3_witness :
    lookupPending (send ⟨0, [], false⟩ "Page.navigate" (some 0)).1.pending
        (send ⟨0, [], false⟩ "Page.navigate" (some 0)).2 =
      some ⟨"Page.navigate", if (some 0 : Option Nat).getD 15000 > 0 then
        some ((some 0 : Option Nat).getD 15000) else none⟩ ∧
      armedTimer (some 0) = none ∧
      lookupPending
          (fireTimeout (send ⟨0, [], false⟩ "Page.navigate" (some 0)).1
            (send ⟨0, [], false⟩ "Page.navigate" (some 0)).2
            "Page.navigate").1.pending
          (send ⟨0, [], false⟩ "Page.navigate" (some 0)).2 = none ∧
      ("timeout: " ++ "Page.navigate").data <:+:
        (fireTimeout (send ⟨0, [], false⟩ "Page.navigate" (some 0)).1
          (send ⟨0, [], false⟩ "Page.navigate" (some 0)).2
          "Page.navigate").2.msg.data ∧
      (fireTimeout (send ⟨0, [], false⟩ "Page.navigate" (some 0)).1
          (send ⟨0, [], false⟩ "Page.navigate" (some 0)).2
          "Page.navigate").1.wsClosed = false :=
  C3_send_timer_and_timeout_rejection ⟨0, [], false⟩ "Page.navigate" (some 0)
    (by simp)

theorem connectionClosedMsg_contains :
    "connection closed".data <:+: connectionClosedMsg.data := by
  refine ⟨"CDP ".data, ".".data, by decide⟩

/-- C4: when the WebSocket closes, the pending map is emptied (timers
cleared with their entries) and every command still pending at that moment
is rejected with the `CDP connection closed.` error, whose message
contains `connection closed`. -/
theorem C4_close_rejects_all_pending (st : CdpState) :
    (onClose st).1.pending = [] ∧
      (∀ p ∈ st.pending,
        (⟨p.1, connectionClosedMsg⟩ : Rejection) ∈ (onClose st).2) ∧
      "connection closed".data <:+: connectionClosedMsg.data := by
  refine ⟨rfl, ?_, connectionClosedMsg_contains⟩
  intro p hp
  exact List.mem_map_of_mem (fun q => (⟨q.1, connectionClosedMsg⟩ : Rejection)) hp

/-- Witness for C4: two pending commands, both rejected on close. -/
theorem C4_witness :
    (onClose ⟨2, [(1, ⟨"A", some 15000⟩), (2, ⟨"B", none⟩)], true⟩).1.pending =
        [] ∧
      (∀ p ∈ [((1 : Nat), (⟨"A", some 15000⟩ : PendingEntry)), (2, ⟨"B", none⟩)],
        (⟨p.1, connectionClosedMsg⟩ : Rejection) ∈
          (onClose ⟨2, [(1, ⟨"A", some 15000⟩), (2, ⟨"B", none⟩)], true⟩).2) ∧
      "connection closed".data <:+: connectionClosedMsg.data :=
  C4_close_rejects_all_pending ⟨2, [(1, ⟨"A", some 15000⟩), (2, ⟨"B", none⟩)], true⟩

/-- C5 counterexample: a frame that carries both an id and a method does
invoke the registered event handlers (refuting "event handlers are not
invoked for frames that carry an id"), and a frame whose error payload is
present but has an empty message resolves the pending promise instead of
rejecting it. -/
theorem C5_counterexample :
    (onMessage ⟨1, [(1, ⟨"Page.navigate", some 15000⟩)], false⟩
          [("Page.loadEventFired", [7])]
          (some ⟨some 1, some "Page.loadEventFired", some "pp", some "rr",
            none⟩)).2.1 = [(7, some "pp")] ∧
      ([((7 : Nat), some "pp")] : List (Nat × Option String)) ≠ [] ∧
      (onMessage ⟨1, [(1, ⟨"Page.navigate", some 15000⟩)], false⟩ []
          (some ⟨some 1, none, none, some "rr",
            some ⟨some ""⟩⟩)).2.2 = some (.resolved 1 (some "rr")) := by
  refine ⟨rfl, by simp, rfl⟩

/-- C5 (amended): malformed frames are dropped without touching the
connection; the handler invocations of a frame do not depend on its id, so
a frame carrying both a method and an id still invokes every registered
handler with its params; every invocation belongs to a handler registered
for the frame's method; and a frame whose non-zero id matches a pending
entry removes that entry (clearing its timer) and rejects its promise
exactly when the error payload carries a non-empty message, resolving it
with the frame's result otherwise. -/
theorem C5_message_dispatch
    (st : CdpState) (handlers : List (String × List Nat)) (msg : Frame)
    (i : Nat) (entry : PendingEntry)
    (hid : msg.id = some i) (hnz : i ≠ 0)
    (hpend : lookupPending st.pending i = some entry) :
    (∀ (st₀ : CdpState) (hs₀ : List (String × List Nat)),
        onMessage st₀ hs₀ none = (st₀, [], none)) ∧
      (∀ (hs₀ : List (String × List Nat)) (f : Frame) (j₁ j₂ : Option Nat),
        frameInvocations hs₀ { f with id := j₁ } =
          frameInvocations hs₀ { f with id := j₂ }) ∧
      (∀ (hs₀ : List (String × List Nat)) (f : Frame) (hid₀ : Nat)
          (p : Option String),
        (hid₀, p) ∈ frameInvocations hs₀ f →
        ∃ m hs, f.method = some m ∧ m ≠ "" ∧
          hs₀.find? (fun h => some h.1 = some m) = some hs ∧
          hid₀ ∈ hs.2 ∧ p = f.params) ∧
      (onMessage st handlers (some msg)).2.1 = frameInvocations handlers msg ∧
      (onMessage st handlers (some msg)).1.pending = erasePending st.pending i ∧
      lookupPending (onMessage st handlers (some msg)).1.pending i = none ∧
      (onMessage st handlers (some msg)).2.2 =
        some (if errorMessageTruthy msg.error then
          .rejected i (errorMessageOf msg.error)
        else .resolved i msg.result) := by
  refine ⟨fun st₀ hs₀ => rfl, fun hs₀ f j₁ j₂ => rfl, ?_, ?_, ?_, ?_, ?_⟩
  · intro hs₀ f hid₀ p hmem
    unfold frameInvocations at hmem
    by_cases hm : methodTruthy f.method
    · rw [if_pos hm] at hmem
      cases hfind : hs₀.find? (fun h => some h.1 = f.method) with
      | none => rw [hfind] at hmem; simp at hmem
      | some hs =>
        rw [hfind] at hmem
        simp only [List.mem_map] at hmem
        obtain ⟨hid₁, hin, heq⟩ := hmem
        cases f with
        | mk fid fm fp fr fe =>
          cases fm with
          | none => simp [methodTruthy] at hm
          | some m =>
            refine ⟨m, hs, rfl, ?_, hfind, ?_, ?_⟩
            · simpa [methodTruthy] using hm
            · cases heq; exact hin
            · cases heq; rfl
    · rw [if_neg hm] at hmem; simp at hmem
  all_goals
    simp only [onMessage, hid, hpend]
  · by_cases he : errorMessageTruthy msg.error <;> simp [he, hnz]
  · by_cases he : errorMessageTruthy msg.error <;> simp [he, hnz]
  · by_cases he : errorMessageTruthy msg.error <;>
      simp [he, hnz, lookupPending_erase]
  · by_cases he : errorMessageTruthy msg.error <;> simp [he, hnz]

/-- Witness for C5: a concrete frame carrying both id 1 and a method,
matching a pending entry and a registered handler. -/
theorem C5_witness :
    (some 1 : Option Nat) = some 1 ∧ (1 : Nat) ≠ 0 ∧
      lookupPending [(1, ⟨"Page.navigate", some 15000⟩)] 1 =
        some ⟨"Page.navigate", some 15000⟩ ∧
      (onMessage ⟨1, [(1, ⟨"Page.navigate", some 15000⟩)], false⟩
          [("Page.loadEventFired", [7])]
          (some ⟨some 1, some "Page.loadEventFired", some "pp", some "rr",
            none⟩)).2.2 = some (.resolved 1 (some "rr")) := by
  refine ⟨rfl, by simp, by rfl, ?_⟩
  have h := (C5_message_dispatch
    ⟨1, [(1, ⟨"Page.navigate", some 15000⟩)], false⟩
    [("Page.loadEventFired", [7])]
    ⟨some 1, some "Page.loadEventFired", some "pp", some "rr", none⟩
    1 ⟨"Page.navigate", some 15000⟩ rfl (by simp) (by rfl)).2.2.2.2.2.2
  simpa using h

/-- Witness for C10: a sticker-flow run with two images assigns only the
first. -/
theorem C10_witness :
    UploadEvent.assignFiles .topImage ["a.png"] ∈
        uploadEvents
          ⟨true, ⟨none, false, true⟩, ⟨none, false, false⟩, false, none,
            false, false, false, false⟩ ["a.png", "b.png"] ∧
      (["a.png"] : List String) =
        (if (⟨true, ⟨none, false, true⟩, ⟨none, false, false⟩, false, none,
            false, false, false, false⟩ : UploadEnv).isStickerFlow then
          ["a.png"] else ["a.png", "b.png"]) :=
  ⟨by decide,
   C10_sticker_flow_only_first_image _ "a.png" ["b.png"] .topImage ["a.png"]
     (by decide)⟩

end WechatBrowser

namespace WechatArticle

/-! ### Theorems for C8 -/

theorem selectOutcome_true_roundtrip (ph text : List Char) (s e : Nat)
    (h : selectOutcomeInNode ph text = some (s, e, true)) :
    (text.drop s).take (e - s) = ph ∨
      normalize ((text.drop s).take (e - s)) = normalize ph := by
  unfold selectOutcomeInNode at h
  split at h
  · simp only [Option.some.injEq, Prod.mk.injEq, decide_eq_true_eq] at h
    obtain ⟨hs, he, hchk⟩ := h
    left
    rw [show e - s = ph.length by omega, ← hs]
    exact hchk
  · split at h
    · cases h
    · split at h
      · split at h
        · simp only [Option.some.injEq, Prod.mk.injEq, decide_eq_true_eq] at h
          obtain ⟨hs, he, hchk⟩ := h
          right
          rw [← hs, ← he]
          exact hchk
        · cases h
      · cases h

theorem walkNodes_some_true (ph : List Char) :
    ∀ (nodes : List (List Char)) (n : Nat) (r : SelectionRange),
      walkNodes ph nodes n = some (r, true) →
      n ≤ r.nodeIdx ∧
        selectOutcomeInNode ph (nodes.getD (r.nodeIdx - n) []) =
          some (r.startOff, r.endOff, true)
  | [], n, r, h => by simp [walkNodes] at h
  | text :: rest, n, r, h => by
    unfold walkNodes at h
    cases hsel : selectOutcomeInNode ph text with
    | some out =>
      obtain ⟨s, e, b⟩ := out
      rw [hsel] at h
      simp only [Option.some.injEq, Prod.mk.injEq] at h
      obtain ⟨hr, hb⟩ := h
      subst hb
      subst hr
      exact ⟨le_refl _, by simpa using hsel⟩
    | none =>
      rw [hsel] at h
      obtain ⟨hle, hout⟩ := walkNodes_some_true ph rest (n + 1) r h
      refine ⟨le_trans (Nat.le_succ n) hle, ?_⟩
      have hidx : r.nodeIdx - n = (r.nodeIdx - (n + 1)) + 1 := by omega
      rw [hidx, List.getD_cons_succ]
      exact hout

theorem select_fst_true (editor : Option (List (List Char)))
    (ph : List Char)
    (h : (selectAndReplacePlaceholder editor ph).1 = true) :
    ∃ nodes r, editor = some nodes ∧
      selectAndReplacePlaceholder editor ph = (true, some r) := by
  cases editor with
  | none => simp [selectAndReplacePlaceholder] at h
  | some nodes =>
    have hsel : selectAndReplacePlaceholder (some nodes) ph =
        (match walkNodes ph nodes 0 with
          | some (r, b) => (b, some r)
          | none => (false, none)) := rfl
    rw [hsel] at h
    split at h
    · rename_i r b hw
      simp only at h
      subst h
      exact ⟨nodes, r, rfl, by rw [hsel, hw]⟩
    · simp at h

theorem select_true_roundtrip (nodes : List (List Char)) (ph : List Char)
    (r : SelectionRange)
    (h : selectAndReplacePlaceholder (some nodes) ph = (true, some r)) :
    extractRange nodes r = ph ∨
      normalize (extractRange nodes r) = normalize ph := by
  have hsel : selectAndReplacePlaceholder (some nodes) ph =
      (match walkNodes ph nodes 0 with
        | some (r, b) => (b, some r)
        | none => (false, none)) := rfl
  rw [hsel] at h
  split at h
  · rename_i r' b hw
    simp only [Prod.mk.injEq, Option.some.injEq] at h
    obtain ⟨hb, hr⟩ := h
    subst hb; subst hr
    obtain ⟨-, hout⟩ := walkNodes_some_true ph nodes 0 r' hw
    rw [Nat.sub_zero] at hout
    exact selectOutcome_true_roundtrip ph (nodes.getD r'.nodeIdx [])
      r'.startOff r'.endOff hout
  · simp at h

theorem flatMap_sublist_of_mem {α β : Type} (f : α → List β)
    {l : List α} {x : α} (h : x ∈ l) :
    (f x).Sublist (l.flatMap f) := by
  induction l with
  | nil => cases h
  | cons y t ih =>
    rw [List.flatMap_cons]
    rcases List.mem_cons.mp h with rfl | h
    · exact List.sublist_append_left (f x) (t.flatMap f)
    · exact (ih h).trans (List.sublist_append_right _ _)

theorem pasteImage_mem_iff (editorAt : Nat → Option (List (List Char)))
    (phs : List (List Char)) (i : Nat) :
    ArticleEvent.pasteImage i ∈ insertImagesLoop editorAt phs ↔
      ∃ ph, phs[i]? = some ph ∧
        (selectAndReplacePlaceholder (editorAt i) ph).1 = true := by
  constructor
  · intro h
    obtain ⟨p, hp, hmem⟩ := List.mem_flatMap.mp h
    obtain ⟨j, ph⟩ := p
    by_cases hfound : (selectAndReplacePlaceholder (editorAt j) ph).1 = true
    · simp only [hfound, if_pos] at hmem
      have hij : i = j := by
        simp only [List.mem_cons, List.mem_singleton, List.not_mem_nil] at hmem
        rcases hmem with h | h | h | h | h <;> first
          | (cases h; rfl)
          | cases h
      subst hij
      exact ⟨ph, List.mk_mem_enum_iff_getElem?.mp hp, hfound⟩
    · rw [Bool.not_eq_true] at hfound
      simp only [hfound, Bool.false_eq_true, if_neg, if_false] at hmem
      simp at hmem
  · rintro ⟨ph, hget, hsel⟩
    apply List.mem_flatMap.mpr
    refine ⟨(i, ph), List.mk_mem_enum_iff_getElem?.mpr hget, ?_⟩
    simp [hsel]

/-- C8: in the image-insertion loop, an image is pasted only if its
placeholder was affirmatively selected in that iteration — the selection
round-trip check succeeded, i.e. the text read back from the live
selection equals the placeholder exactly or after normalization — and the
affirmative selection event precedes the paste event; an image whose
placeholder selection fails is skipped and never pasted. -/
theorem C8_paste_requires_selected_placeholder
    (editorAt : Nat → Option (List (List Char)))
    (phs : List (List Char)) :
    (∀ i, ArticleEvent.pasteImage i ∈ insertImagesLoop editorAt phs →
      ∃ ph nodes r, phs[i]? = some ph ∧ editorAt i = some nodes ∧
        selectAndReplacePlaceholder (editorAt i) ph = (true, some r) ∧
        (extractRange nodes r = ph ∨
          normalize (extractRange nodes r) = normalize ph) ∧
        [ArticleEvent.selectPlaceholder i true,
          ArticleEvent.pasteImage i].Sublist (insertImagesLoop editorAt phs)) ∧
      ∀ i ph, phs[i]? = some ph →
        (selectAndReplacePlaceholder (editorAt i) ph).1 = false →
        ArticleEvent.pasteImage i ∉ insertImagesLoop editorAt phs := by
  constructor
  · intro i h
    obtain ⟨ph, hget, hsel⟩ := (pasteImage_mem_iff editorAt phs i).mp h
    obtain ⟨nodes, r, hed, hfull⟩ := select_fst_true (editorAt i) ph hsel
    refine ⟨ph, nodes, r, hget, hed, hfull, ?_, ?_⟩
    · rw [hed] at hfull
      exact select_true_roundtrip nodes ph r hfull
    · have hblock := flatMap_sublist_of_mem
        (fun p => ArticleEvent.selectPlaceholder p.1
            ((selectAndReplacePlaceholder (editorAt p.1) p.2).1) ::
          (if (selectAndReplacePlaceholder (editorAt p.1) p.2).1 then
            [ArticleEvent.copyImage p.1, ArticleEvent.deletePlaceholder p.1,
              ArticleEvent.pasteImage p.1]
          else []))
        (List.mk_mem_enum_iff_getElem?.mpr hget)
      refine List.Sublist.trans ?_ hblock
      simp only [hsel, if_pos]
      exact (List.Sublist.cons _ (List.Sublist.cons _
        (List.Sublist.cons₂ _ (List.Sublist.slnil)))).cons₂ _
  · intro i ph hget hfail hmem
    obtain ⟨ph', hget', hsel'⟩ := (pasteImage_mem_iff editorAt phs i).mp hmem
    rw [hget] at hget'
    cases hget'
    rw [hfail] at hsel'
    cases hsel'

/-- Witness for C8: a two-image run where the first placeholder is found
and pasted and the second is not found, hence skipped. -/
theorem C8_witness :
    (∃ ph nodes r,
      ([[ 'b' ], [ 'z' ]] : List (List Char))[0]? = some ph ∧
        (fun _ => some [[ 'a', 'b', 'c' ]] :
          Nat → Option (List (List Char))) 0 = some nodes ∧
        selectAndReplacePlaceholder
            ((fun _ => some [[ 'a', 'b', 'c' ]] :
              Nat → Option (List (List Char))) 0) ph = (true, some r) ∧
        (extractRange nodes r = ph ∨
          normalize (extractRange nodes r) = normalize ph) ∧
        [ArticleEvent.selectPlaceholder 0 true,
          ArticleEvent.pasteImage 0].Sublist
          (insertImagesLoop (fun _ => some [[ 'a', 'b', 'c' ]])
            [[ 'b' ], [ 'z' ]])) ∧
      ArticleEvent.pasteImage 1 ∉
        insertImagesLoop (fun _ => some [[ 'a', 'b', 'c' ]])
          [[ 'b' ], [ 'z' ]] :=
  ⟨(C8_paste_requires_selected_placeholder
      (fun _ => some [[ 'a', 'b', 'c' ]]) [[ 'b' ], [ 'z' ]]).1 0 (by decide),
   (C8_paste_requires_selected_placeholder
      (fun _ => some [[ 'a', 'b', 'c' ]]) [[ 'b' ], [ 'z' ]]).2 1 [ 'z' ]
     (by decide) (by decide)⟩

end WechatArticle
